import Mathlib

/-!
Shallow embedding of the Code_Smell_Detector repository (Python) and proofs
about its six smell detectors.

Conventions of the embedding:
* Python strings are Lean `String`s (a structure over `List Char`); the
  string helpers below mirror `str.strip`, `str.split`, `str.upper`, … for
  the ASCII texts the detectors handle.
* Python `float` arithmetic on the small integer counts and ratio/similarity
  scores appearing here is exact for every comparison the code performs, so
  scores and thresholds are modelled as `ℚ`.
* `ast.walk` is a breadth-first traversal; the walkers below are depth-first
  pre-order.  They visit exactly the same multiset of nodes, and every
  property proved below (counts, memberships, emptiness) is insensitive to
  the visit order.
* `ast.parse` is external to the detectors: each `detect` takes the parsed
  tree as an `Option` (mirroring `parse_ast` returning `None` on a syntax
  error) together with the raw source text used by the extent resolver.
-/

namespace CodeSmell

/-! ## String helpers mirroring the Python `str` methods used by the code -/

/-- The characters Python's `str.strip` / `str.split` treat as whitespace
(restricted to the ASCII range handled by this embedding). -/
def pyWs (c : Char) : Bool :=
  c = ' ' || c = '\t' || c = '\n' || c = '\r' || c = '\x0b' || c = '\x0c'

/-- `len(line) - len(line.lstrip())`: the leading-whitespace width used as
the indentation depth by the extent scans. -/
def indentOf (s : String) : Nat := (s.data.takeWhile pyWs).length

/-- Python `str.strip()`. -/
def pyStrip (s : String) : String :=
  String.mk (((s.data.dropWhile pyWs).reverse.dropWhile pyWs).reverse)

/-- Splitting on one separator character, keeping empty pieces, as Python's
`str.split(sep)` does; `"".split(sep) == [""]`. -/
def splitCh (sep : Char) : List Char → List (List Char)
  | [] => [[]]
  | c :: cs =>
    if c = sep then [] :: splitCh sep cs
    else
      match splitCh sep cs with
      | [] => [[c]]
      | t :: ts => (c :: t) :: ts

/-- `source_code.split` at newlines, as every detector does first. -/
def splitLines (s : String) : List String :=
  (splitCh '\n' s.data).map String.mk

/-- The accumulator loop behind `str.split()` with no argument: `cur` is
the (reversed) token currently being read; whitespace flushes it. -/
def splitTokensGo : List Char → List Char → List (List Char)
  | [], cur => if cur.isEmpty then [] else [cur.reverse]
  | c :: cs, cur =>
    if pyWs c then
      (if cur.isEmpty then splitTokensGo cs [] else cur.reverse :: splitTokensGo cs [])
    else splitTokensGo cs (c :: cur)

/-- Python `str.split()` with no argument: maximal runs of non-whitespace
characters, no empty tokens. -/
def splitTokens (l : List Char) : List (List Char) := splitTokensGo l []

/-- The whitespace-separated tokens of a string (`str.split()`). -/
def pyTokens (s : String) : List String :=
  (splitTokens s.data).map String.mk

/-- Python's substring test `sub in s` on character lists. -/
def hasSub (sub : List Char) : List Char → Bool
  | [] => sub.isEmpty
  | c :: cs => sub.isPrefixOf (c :: cs) || hasSub sub cs

/-- Python's substring test `sub in s`. -/
def strHasSub (s sub : String) : Bool := hasSub sub.data s.data

/-- Python `str.upper()` (ASCII). -/
def pyUpper (s : String) : String := String.mk (s.data.map Char.toUpper)

/-- Python `str.lower()` (ASCII). -/
def pyLower (s : String) : String := String.mk (s.data.map Char.toLower)

/-- Python `str.isupper()`: at least one cased character and no lowercase
cased character (ASCII: cased = alphabetic). -/
def pyIsUpper (s : String) : Bool :=
  s.data.any Char.isAlpha && s.data.all (fun c => !c.isAlpha || c.isUpper)

/-- `chr 10`-joining, as `'\n'.join(body_lines)` in the body extraction and
normalization helpers. -/
def joinNL : List String → String
  | [] => ""
  | [s] => s
  | s :: rest => s ++ String.mk ['\n'] ++ joinNL rest

/-! ## The Python syntax tree, restricted to the node kinds the detectors
match on (`ast.FunctionDef`, `ast.AsyncFunctionDef`, `ast.ClassDef`,
`ast.Assign`, `ast.AnnAssign`, `ast.Attribute`, `ast.Name`, `ast.Call`,
`ast.If`, `ast.While`, `ast.For`/`ast.AsyncFor`, `ast.Try` handlers,
`ast.BoolOp`, `ast.Constant`), plus generic containers so that arbitrary
expressions can appear where the detectors do not look.  Line numbers are
carried where the code reads `.lineno`.  Numeric constants carry their
value as `ℚ` (Python `int`/`float` compare exactly at the magnitudes
involved); `bool` constants, docstrings and the like either have their own
constructor or are irrelevant to every detector rule. -/

inductive PyExpr where
  | name (id : String)
  | attribute (value : PyExpr) (attr : String)
  | call (func : PyExpr) (args : List PyExpr)
  | numConst (value : ℚ) (lineno : Nat)
  | strConst (value : String)
  | noneConst
  | boolOp (values : List PyExpr)
  | binOp (left right : PyExpr)
  | subscript (value : PyExpr) (index : PyExpr)
  | tupleE (elts : List PyExpr)

/-- Assignment targets: plain names, tuple/list unpacking, or any other
expression target (`a[i] = …`, `a.b = …`). -/
inductive PyTarget where
  | tname (id : String)
  | ttuple (elts : List PyTarget)
  | texpr (e : PyExpr)

/-- Function parameters, as read by `LargeParameterListDetector`:
`args.posonlyargs`, `args.args`, `args.kwonlyargs` (the detector never
counts `*args` / `**kwargs`, so they are not modelled). -/
structure PyArgs where
  posonlyargs : List String
  args : List String
  kwonlyargs : List String
  deriving DecidableEq, Repr

inductive PyStmt where
  | functionDef (name : String) (lineno : Nat) (args : PyArgs)
      (body : List PyStmt) (is_async : Bool)
  | classDef (name : String) (lineno : Nat) (body : List PyStmt)
  | assign (targets : List PyTarget) (value : PyExpr)
  | annAssign (target : PyTarget) (value : Option PyExpr)
  | augAssign (target : PyTarget) (value : PyExpr)
  | exprStmt (value : PyExpr)
  | ifStmt (test : PyExpr) (body orelse : List PyStmt)
  | whileStmt (test : PyExpr) (body orelse : List PyStmt)
  | forStmt (target : PyTarget) (iter : PyExpr) (body orelse : List PyStmt)
      (is_async : Bool)
  | tryStmt (body : List PyStmt) (handlers : List (List PyStmt))
      (orelse finalBody : List PyStmt)
  | ret (value : Option PyExpr)
  | passStmt

/-- A parsed module (`ast.Module.body`). -/
abbrev PyModule := List PyStmt

/-! ### Walkers.  `ast.walk` enumerates every node of a subtree; the
detectors use it only for order-insensitive counting and filtering (see the
header note on visit order). -/

mutual

/-- All expression nodes of an expression subtree, the root included. -/
def exprNodes : PyExpr → List PyExpr
  | .name i => [.name i]
  | .attribute v a => .attribute v a :: exprNodes v
  | .call f args => .call f args :: (exprNodes f ++ exprListNodes args)
  | .numConst v l => [.numConst v l]
  | .strConst s => [.strConst s]
  | .noneConst => [.noneConst]
  | .boolOp vs => .boolOp vs :: exprListNodes vs
  | .binOp l r => .binOp l r :: (exprNodes l ++ exprNodes r)
  | .subscript v i => .subscript v i :: (exprNodes v ++ exprNodes i)
  | .tupleE es => .tupleE es :: exprListNodes es

def exprListNodes : List PyExpr → List PyExpr
  | [] => []
  | e :: es => exprNodes e ++ exprListNodes es

end

mutual

/-- All expression nodes appearing anywhere under a statement (targets,
values, tests, and the bodies of nested definitions alike, as `ast.walk`
reaches them all). -/
def stmtExprs : PyStmt → List PyExpr
  | .functionDef _ _ _ body _ => stmtListExprs body
  | .classDef _ _ body => stmtListExprs body
  | .assign targets value => targetListExprs targets ++ exprNodes value
  | .annAssign target value =>
      targetExprs target ++ (match value with | none => [] | some v => exprNodes v)
  | .augAssign target value => targetExprs target ++ exprNodes value
  | .exprStmt v => exprNodes v
  | .ifStmt t b o => exprNodes t ++ stmtListExprs b ++ stmtListExprs o
  | .whileStmt t b o => exprNodes t ++ stmtListExprs b ++ stmtListExprs o
  | .forStmt tr it b o _ =>
      targetExprs tr ++ exprNodes it ++ stmtListExprs b ++ stmtListExprs o
  | .tryStmt b hs o f =>
      stmtListExprs b ++ handlerListExprs hs ++ stmtListExprs o ++ stmtListExprs f
  | .ret v => (match v with | none => [] | some e => exprNodes e)
  | .passStmt => []

def stmtListExprs : List PyStmt → List PyExpr
  | [] => []
  | s :: ss => stmtExprs s ++ stmtListExprs ss

def targetExprs : PyTarget → List PyExpr
  | .tname _ => []
  | .ttuple elts => targetListExprs elts
  | .texpr e => exprNodes e

def targetListExprs : List PyTarget → List PyExpr
  | [] => []
  | t :: ts => targetExprs t ++ targetListExprs ts

def handlerListExprs : List (List PyStmt) → List PyExpr
  | [] => []
  | h :: hs => stmtListExprs h ++ handlerListExprs hs

end

mutual

/-- All statement nodes of a statement subtree, the root included
(exception handlers contribute their bodies; the handler nodes themselves
are counted separately where needed). -/
def stmtNodes : PyStmt → List PyStmt
  | .functionDef n l a body ia => .functionDef n l a body ia :: stmtListNodes body
  | .classDef n l body => .classDef n l body :: stmtListNodes body
  | .assign ts v => [.assign ts v]
  | .annAssign t v => [.annAssign t v]
  | .augAssign t v => [.augAssign t v]
  | .exprStmt v => [.exprStmt v]
  | .ifStmt t b o => .ifStmt t b o :: (stmtListNodes b ++ stmtListNodes o)
  | .whileStmt t b o => .whileStmt t b o :: (stmtListNodes b ++ stmtListNodes o)
  | .forStmt tr it b o ia =>
      .forStmt tr it b o ia :: (stmtListNodes b ++ stmtListNodes o)
  | .tryStmt b hs o f =>
      .tryStmt b hs o f ::
        (stmtListNodes b ++ handlerListNodes hs ++ stmtListNodes o ++ stmtListNodes f)
  | .ret v => [.ret v]
  | .passStmt => [.passStmt]

def stmtListNodes : List PyStmt → List PyStmt
  | [] => []
  | s :: ss => stmtNodes s ++ stmtListNodes ss

def handlerListNodes : List (List PyStmt) → List PyStmt
  | [] => []
  | h :: hs => stmtListNodes h ++ handlerListNodes hs

end

/-- A function-definition node, as picked out of `ast.walk` by
`isinstance(node, (ast.FunctionDef, ast.AsyncFunctionDef))`. -/
structure FuncNode where
  name : String
  lineno : Nat
  args : PyArgs
  body : List PyStmt
  is_async : Bool

/-- Every function definition anywhere in the tree, in visit order. -/
def functionDefsOf (tree : PyModule) : List FuncNode :=
  (stmtListNodes tree).filterMap fun s =>
    match s with
    | .functionDef n l a b ia => some ⟨n, l, a, b, ia⟩
    | _ => none

/-- A class-definition node. -/
structure ClassNode where
  name : String
  lineno : Nat
  body : List PyStmt

/-- Every class definition anywhere in the tree, in visit order. -/
def classDefsOf (tree : PyModule) : List ClassNode :=
  (stmtListNodes tree).filterMap fun s =>
    match s with
    | .classDef n l b => some ⟨n, l, b⟩
    | _ => none

/-! ## The extent resolver

`LongMethodDetector._count_method_lines`, `GodClassDetector._count_class_lines`,
`DuplicatedCodeDetector._count_function_lines` and the body slicing in
`DuplicatedCodeDetector._extract_function_body` all contain the identical
indentation scan; it is defined once here. -/

/-- The loop body of the scan, iterating over the remaining lines while
carrying the running index `i`; `total = len(lines)` is returned when the
loop falls through (the `for … else` clause). -/
def findEndAux (baseIndent total : Nat) : List String → Nat → Nat
  | [], _ => total
  | line :: rest, i =>
    if pyStrip line = "" then findEndAux baseIndent total rest (i + 1)
    else if indentOf line ≤ baseIndent then i
    else findEndAux baseIndent total rest (i + 1)

/-- The scan for the end of an indented block: starting at line index `i`,
skip blank lines, stop at the first non-blank line whose indentation is
`≤ baseIndent`; if none exists the block runs to the end of the file. -/
def findEndLine (lines : List String) (baseIndent : Nat) (i : Nat) : Nat :=
  findEndAux baseIndent lines.length (lines.drop i) i

/-- The extent (in lines) of the definition starting at 1-based line
`lineno`: `end_line - start_line` with `start_line = lineno - 1`.  A
`lineno` beyond the file would raise in Python; the detectors only ever
pass linenos of nodes parsed from the same source. -/
def count_extent (src : String) (lineno : Nat) : Nat :=
  let lines := splitLines src
  let start := lineno - 1
  let base := indentOf (lines.getD start "")
  findEndLine lines base (start + 1) - start

/-- `DuplicatedCodeDetector._extract_function_body`: the text of
`lines[start_line + 1 : end_line]` joined by newlines (the `def` line
itself is excluded). -/
def extract_function_body (src : String) (lineno : Nat) : String :=
  let lines := splitLines src
  let start := lineno - 1
  let base := indentOf (lines.getD start "")
  let endLine := findEndLine lines base (start + 1)
  joinNL ((lines.drop (start + 1)).take (endLine - (start + 1)))

/-! ## DuplicatedCodeDetector similarity helpers -/

/-- `_normalize_code`: drop everything from the first `#` of each line,
strip each line, drop the lines that are then empty, and re-join. -/
def normalize_code (code : String) : String :=
  joinNL ((((splitLines code).map
    (fun line => pyStrip (String.mk (line.data.takeWhile (fun c => c ≠ '#'))))).filter
      (fun line => line ≠ "")))

/-- `_string_similarity`: the Jaccard index of the token sets, behind the
guards of the source (`0.0` when either *string* is empty — this branch
precedes the token checks — `1.0` when both token sets are empty, `0.0`
when exactly one is). -/
def string_similarity (str1 str2 : String) : ℚ :=
  if str1 = "" || str2 = "" then 0
  else
    let tokens1 := (pyTokens str1).toFinset
    let tokens2 := (pyTokens str2).toFinset
    if tokens1 = ∅ ∧ tokens2 = ∅ then 1
    else if tokens1 = ∅ ∨ tokens2 = ∅ then 0
    else
      let inter := (tokens1 ∩ tokens2).card
      let union := (tokens1 ∪ tokens2).card
      if 0 < union then (inter : ℚ) / (union : ℚ) else 0

/-- The tags `_extract_patterns` appends for one (already stripped,
non-empty) line, in source order. -/
def extract_patterns_line (line : String) : List String :=
  (if line.startsWith ("if ") || line.startsWith ("elif ") || line.startsWith ("else:")
   then ["conditional"] else []) ++
  (if strHasSub line (" = ") && !line.startsWith ("#") then ["assignment"] else []) ++
  (if strHasSub line ("(") && strHasSub line (")") && !line.startsWith ("#")
   then ["method_call"] else []) ++
  (if line.startsWith ("return ") then ["return"] else []) ++
  (if strHasSub line ("loyalty_level") || strHasSub line ("discount_rate") ||
      strHasSub line ("reward_rate") then ["loyalty_logic"] else []) ++
  (if strHasSub (pyLower line) ("tier") || strHasSub (pyLower line) ("level")
   then ["tier_logic"] else [])

/-- `_extract_patterns` over a whole normalized body. -/
def extract_patterns (code : String) : List String :=
  ((((splitLines code).map pyStrip).filter (fun l => l ≠ "")).map
    extract_patterns_line).flatten

/-- The matching loop of `_pattern_similarity`: each tag of the first list
found in (what remains of) the second consumes one occurrence there and
credits 2. -/
def match_patterns : List String → List String → Nat
  | [], _ => 0
  | p :: rest, ps2 =>
    if p ∈ ps2 then 2 + match_patterns rest (ps2.erase p)
    else match_patterns rest ps2

/-- `_pattern_similarity`. -/
def pattern_similarity (code1 code2 : String) : ℚ :=
  let patterns1 := extract_patterns code1
  let patterns2 := extract_patterns code2
  if patterns1.isEmpty ∧ patterns2.isEmpty then 1
  else if patterns1.isEmpty ∨ patterns2.isEmpty then 0
  else
    let total := patterns1.length + patterns2.length
    let common := match_patterns patterns1 patterns2
    if 0 < total then (common : ℚ) / (total : ℚ) else 0

/-- `_calculate_similarity` between the functions starting at the given
linenos (the two node arguments are used only for their `.lineno`):
`0.0` if either extracted body is empty, otherwise the larger of the token
similarity and the pattern similarity of the normalized bodies. -/
def calculate_similarity (src : String) (lineno1 lineno2 : Nat) : ℚ :=
  let body1 := extract_function_body src lineno1
  let body2 := extract_function_body src lineno2
  if body1 = "" || body2 = "" then 0
  else
    max (string_similarity (normalize_code body1) (normalize_code body2))
        (pattern_similarity (normalize_code body1) (normalize_code body2))

/-! ## Configuration (`BaseDetector.is_enabled` / `get_threshold`)

`self.config.get(self.smell_name, {})` yields the detector's own entry:
absent (`{}` is used), a non-dict value (then `is_enabled` is its
truthiness and every threshold falls back to its default), or a dict with
an optional `enabled` key and optional threshold keys.  Each detector's
threshold keys are modelled as a typed record of `Option`s. -/

inductive DetectorEntry (θ : Type) where
  | missing
  | nondict (truthy : Bool)
  | dict (enabled : Option Bool) (thresholds : θ)

/-- `BaseDetector.is_enabled`. -/
def DetectorEntry.is_enabled : DetectorEntry θ → Bool
  | .missing => true
  | .nondict b => b
  | .dict e _ => e.getD true

/-- `BaseDetector.get_threshold`, given the field selector of a typed
thresholds record. -/
def DetectorEntry.threshold (sel : θ → Option α) (default : α) :
    DetectorEntry θ → α
  | .dict _ t => (sel t).getD default
  | _ => default

/-! ## LongMethodDetector -/

structure LongMethodThresholds where
  max_lines : Option Nat
  max_complexity : Option Nat

/-- `_calculate_complexity`: 1, plus 1 per `If`/`While`/`For`/`AsyncFor`
node, plus 1 per exception handler, plus `len(values) - 1` per `BoolOp`,
over the whole subtree of the method. -/
def calculate_complexity (body : List PyStmt) : Nat :=
  1 +
  ((stmtListNodes body).map (fun s =>
    match s with
    | .ifStmt _ _ _ => 1
    | .whileStmt _ _ _ => 1
    | .forStmt _ _ _ _ _ => 1
    | .tryStmt _ hs _ _ => hs.length
    | _ => 0)).sum +
  ((stmtListExprs body).map (fun e =>
    match e with
    | .boolOp vs => vs.length - 1
    | _ => 0)).sum

/-- A LongMethod finding; `message` is kept because it is the only field
distinguishing the line-count finding from the complexity finding. -/
structure LongMethodSmell where
  file_path : String
  line_number : Nat
  severity : String
  message : String
  method_name : String
  line_count : Nat
  max_lines : Nat
  complexity : Nat
  max_complexity : Nat
  deriving DecidableEq, Repr

/-- The line-count finding of `_analyze_method`. -/
def line_smell (file_path name : String) (lineno : Nat)
    (method_lines complexity max_lines max_complexity : Nat) : LongMethodSmell :=
  { file_path := file_path
    line_number := lineno
    severity := if (max_lines : ℚ) * (3/2) < (method_lines : ℚ) then "high" else "medium"
    message := "Method '" ++ name ++ "' is too long (" ++ toString method_lines ++
      " lines, max: " ++ toString max_lines ++ ")"
    method_name := name
    line_count := method_lines
    max_lines := max_lines
    complexity := complexity
    max_complexity := max_complexity }

/-- The complexity finding of `_analyze_method`. -/
def complexity_smell (file_path name : String) (lineno : Nat)
    (method_lines complexity max_lines max_complexity : Nat) : LongMethodSmell :=
  { file_path := file_path
    line_number := lineno
    severity := if (max_complexity : ℚ) * (3/2) < (complexity : ℚ) then "high" else "medium"
    message := "Method '" ++ name ++ "' has high complexity (" ++ toString complexity ++
      ", max: " ++ toString max_complexity ++ ")"
    method_name := name
    line_count := method_lines
    max_lines := max_lines
    complexity := complexity
    max_complexity := max_complexity }

/-- `LongMethodDetector._analyze_method`: the two threshold checks, each
with the 1.5× severity escalation, in source order. -/
def analyze_method (file_path src : String) (name : String) (lineno : Nat)
    (body : List PyStmt) (max_lines max_complexity : Nat) : List LongMethodSmell :=
  let method_lines := count_extent src lineno
  let complexity := calculate_complexity body
  (if max_lines < method_lines then
    [line_smell file_path name lineno method_lines complexity max_lines max_complexity]
   else []) ++
  (if max_complexity < complexity then
    [complexity_smell file_path name lineno method_lines complexity max_lines max_complexity]
   else [])

/-- `LongMethodDetector.detect`: only synchronous `ast.FunctionDef` nodes
are analyzed (`ast.AsyncFunctionDef` is a distinct class and is not
matched). -/
def LongMethod_detect (cfg : DetectorEntry LongMethodThresholds)
    (file_path : String) (tree? : Option PyModule) (src : String) :
    List LongMethodSmell :=
  if !cfg.is_enabled then [] else
  match tree? with
  | none => []
  | some tree =>
    let max_lines := cfg.threshold LongMethodThresholds.max_lines 30
    let max_complexity := cfg.threshold LongMethodThresholds.max_complexity 10
    (((functionDefsOf tree).filter (fun f => !f.is_async)).map
      (fun f => analyze_method file_path src f.name f.lineno f.body
        max_lines max_complexity)).flatten

/-! ## GodClassDetector -/

structure GodClassThresholds where
  max_fields : Option Nat
  max_methods : Option Nat
  max_lines : Option Nat

/-- `_count_fields`: over the statements directly in the class body, each
`Assign` contributes `len(node.targets)` (a tuple-unpacking target is a
single element of `targets`) and each `AnnAssign` contributes 1. -/
def count_fields (body : List PyStmt) : Nat :=
  body.foldl (fun acc s =>
    match s with
    | .assign targets _ => acc + targets.length
    | .annAssign _ _ => acc + 1
    | _ => acc) 0

/-- `_count_methods`: function definitions (sync or async) directly in the
class body. -/
def count_methods (body : List PyStmt) : Nat :=
  body.foldl (fun acc s =>
    match s with
    | .functionDef _ _ _ _ _ => acc + 1
    | _ => acc) 0

structure GodClassSmell where
  file_path : String
  line_number : Nat
  severity : String
  class_name : String
  field_count : Nat
  max_fields : Nat
  method_count : Nat
  max_methods : Nat
  line_count : Nat
  max_lines : Nat
  deriving DecidableEq, Repr

/-- `GodClassDetector._analyze_class`: the three independent checks, each
with the 1.5× escalation, each reporting all three measured counts. -/
def analyze_class (file_path src : String) (c : ClassNode)
    (max_fields max_methods max_lines : Nat) : List GodClassSmell :=
  let fields := count_fields c.body
  let methods := count_methods c.body
  let class_lines := count_extent src c.lineno
  let mk := fun (sev : String) =>
    { file_path := file_path
      line_number := c.lineno
      severity := sev
      class_name := c.name
      field_count := fields
      max_fields := max_fields
      method_count := methods
      max_methods := max_methods
      line_count := class_lines
      max_lines := max_lines : GodClassSmell }
  (if max_fields < fields then
    [mk (if (max_fields : ℚ) * (3/2) < (fields : ℚ) then "high" else "medium")]
   else []) ++
  (if max_methods < methods then
    [mk (if (max_methods : ℚ) * (3/2) < (methods : ℚ) then "high" else "medium")]
   else []) ++
  (if max_lines < class_lines then
    [mk (if (max_lines : ℚ) * (3/2) < (class_lines : ℚ) then "high" else "medium")]
   else [])

/-- `GodClassDetector.detect`. -/
def GodClass_detect (cfg : DetectorEntry GodClassThresholds)
    (file_path : String) (tree? : Option PyModule) (src : String) :
    List GodClassSmell :=
  if !cfg.is_enabled then [] else
  match tree? with
  | none => []
  | some tree =>
    let max_fields := cfg.threshold GodClassThresholds.max_fields 15
    let max_methods := cfg.threshold GodClassThresholds.max_methods 20
    let max_lines := cfg.threshold GodClassThresholds.max_lines 200
    ((classDefsOf tree).map
      (fun c => analyze_class file_path src c max_fields max_methods max_lines)).flatten

/-! ## LargeParameterListDetector -/

structure LargeParameterListThresholds where
  max_parameters : Option Nat

/-- `_count_parameters`: `len(args.args)`, plus `len(args.kwonlyargs)` when
that list is non-empty, plus `len(args.posonlyargs)` when that list is
non-empty (the truthiness guards do not change the sum). -/
def count_parameters (a : PyArgs) : Nat :=
  let c := a.args.length
  let c := if a.kwonlyargs.isEmpty then c else c + a.kwonlyargs.length
  if a.posonlyargs.isEmpty then c else c + a.posonlyargs.length

structure LargeParameterListSmell where
  file_path : String
  line_number : Nat
  severity : String
  method_name : String
  parameter_count : Nat
  max_parameters : Nat
  parameters : List String
  deriving DecidableEq, Repr

/-- The finding `LargeParameterListDetector.detect` builds for one
function; severity `high` exactly when `param_count > max_parameters * 2`. -/
def mkLargeParamSmell (file_path : String) (max_parameters : Nat)
    (f : FuncNode) : LargeParameterListSmell :=
  { file_path := file_path
    line_number := f.lineno
    severity :=
      if max_parameters * 2 < count_parameters f.args then "high" else "medium"
    method_name := f.name
    parameter_count := count_parameters f.args
    max_parameters := max_parameters
    parameters := f.args.args }

/-- `LargeParameterListDetector.detect`: every function definition, sync or
async. -/
def LargeParameterList_detect (cfg : DetectorEntry LargeParameterListThresholds)
    (file_path : String) (tree? : Option PyModule) : List LargeParameterListSmell :=
  if !cfg.is_enabled then [] else
  match tree? with
  | none => []
  | some tree =>
    let max_parameters := cfg.threshold LargeParameterListThresholds.max_parameters 5
    (functionDefsOf tree).filterMap (fun f =>
      if max_parameters < count_parameters f.args then
        some (mkLargeParamSmell file_path max_parameters f)
      else none)

/-! ## MagicNumbersDetector -/

structure MagicNumbersThresholds where
  min_occurrences : Option Nat
  whitelist : Option (List ℚ)
  min_value : Option ℚ
  max_value : Option ℚ

/-- `_is_in_constant_definition`'s per-target test.  Note the source
upper-cases the name *before* its `isupper()` / prefix / suffix checks
(`name = target.id.upper()`), so any name containing a letter passes the
`isupper()` test. -/
def looks_like_constant (id : String) : Bool :=
  let name := pyUpper id
  pyIsUpper name ||
  name.startsWith ("MAX_") || name.startsWith ("MIN_") ||
  name.startsWith ("DEFAULT_") ||
  name.endsWith ("_LIMIT") || name.endsWith ("_THRESHOLD")

/-- Whether some target of an `Assign` is a `Name` that
`_is_in_constant_definition` accepts. -/
def assignTargetConstName (ts : List PyTarget) : Bool :=
  ts.any (fun t =>
    match t with
    | .tname id => looks_like_constant id
    | _ => false)

mutual

/-- Numeric-literal occurrences of an expression subtree, each tagged with
whether it lies inside a qualifying constant assignment.
`_is_in_constant_definition(node, tree)` re-scans the whole tree for an
`Assign` with a qualifying `Name` target whose subtree contains `node` (by
object identity); since `Assign` nodes contain no statements, that is
exactly the immediately enclosing `Assign`, so the flag can be threaded
down the traversal. -/
def exprMagic (inConst : Bool) : PyExpr → List (ℚ × Nat × Bool)
  | .name _ => []
  | .attribute v _ => exprMagic inConst v
  | .call f args => exprMagic inConst f ++ exprListMagic inConst args
  | .numConst v l => [(v, l, inConst)]
  | .strConst _ => []
  | .noneConst => []
  | .boolOp vs => exprListMagic inConst vs
  | .binOp l r => exprMagic inConst l ++ exprMagic inConst r
  | .subscript v i => exprMagic inConst v ++ exprMagic inConst i
  | .tupleE es => exprListMagic inConst es

def exprListMagic (inConst : Bool) : List PyExpr → List (ℚ × Nat × Bool)
  | [] => []
  | e :: es => exprMagic inConst e ++ exprListMagic inConst es

end

mutual

def targetMagic (inConst : Bool) : PyTarget → List (ℚ × Nat × Bool)
  | .tname _ => []
  | .ttuple elts => targetListMagic inConst elts
  | .texpr e => exprMagic inConst e

def targetListMagic (inConst : Bool) : List PyTarget → List (ℚ × Nat × Bool)
  | [] => []
  | t :: ts => targetMagic inConst t ++ targetListMagic inConst ts

end

mutual

def stmtMagic : PyStmt → List (ℚ × Nat × Bool)
  | .functionDef _ _ _ body _ => stmtListMagic body
  | .classDef _ _ body => stmtListMagic body
  | .assign targets value =>
      let flag := assignTargetConstName targets
      targetListMagic flag targets ++ exprMagic flag value
  | .annAssign target value =>
      targetMagic false target ++
        (match value with | none => [] | some v => exprMagic false v)
  | .augAssign target value => targetMagic false target ++ exprMagic false value
  | .exprStmt v => exprMagic false v
  | .ifStmt t b o => exprMagic false t ++ stmtListMagic b ++ stmtListMagic o
  | .whileStmt t b o => exprMagic false t ++ stmtListMagic b ++ stmtListMagic o
  | .forStmt tr it b o _ =>
      targetMagic false tr ++ exprMagic false it ++ stmtListMagic b ++ stmtListMagic o
  | .tryStmt b hs o f =>
      stmtListMagic b ++ handlerListMagic hs ++ stmtListMagic o ++ stmtListMagic f
  | .ret v => (match v with | none => [] | some e => exprMagic false e)
  | .passStmt => []

def stmtListMagic : List PyStmt → List (ℚ × Nat × Bool)
  | [] => []
  | s :: ss => stmtMagic s ++ stmtListMagic ss

def handlerListMagic : List (List PyStmt) → List (ℚ × Nat × Bool)
  | [] => []
  | h :: hs => stmtListMagic h ++ handlerListMagic hs

end

/-- `_find_magic_numbers`: every numeric literal that is not whitelisted,
whose absolute value lies in `[min_value, max_value]`, and that is not in a
constant definition. -/
def find_magic_numbers (tree : PyModule) (whitelist : List ℚ)
    (min_value max_value : ℚ) : List (ℚ × Nat) :=
  (stmtListMagic tree).filterMap (fun x =>
    if !whitelist.contains x.1 ∧ min_value ≤ |x.1| ∧ |x.1| ≤ max_value ∧ !x.2.2
    then some (x.1, x.2.1) else none)

/-- The keys of the Python grouping dict, in first-occurrence order. -/
def magicKeys (ms : List (ℚ × Nat)) : List ℚ :=
  ms.foldl (fun ks p => if ks.contains p.1 then ks else ks ++ [p.1]) []

/-- The line numbers recorded for one value, in discovery order. -/
def magicLines (ms : List (ℚ × Nat)) (v : ℚ) : List Nat :=
  (ms.filter (fun p => p.1 = v)).map Prod.snd

structure MagicNumbersSmell where
  file_path : String
  line_number : Nat
  severity : String
  magic_number : ℚ
  occurrences : Nat
  line_numbers : List Nat
  min_occurrences : Nat
  whitelist : List ℚ
  deriving DecidableEq, Repr

/-- `MagicNumbersDetector.detect`. -/
def MagicNumbers_detect (cfg : DetectorEntry MagicNumbersThresholds)
    (file_path : String) (tree? : Option PyModule) : List MagicNumbersSmell :=
  if !cfg.is_enabled then [] else
  match tree? with
  | none => []
  | some tree =>
    let min_occurrences := cfg.threshold MagicNumbersThresholds.min_occurrences 3
    let whitelist := cfg.threshold MagicNumbersThresholds.whitelist [0, 1, -1]
    let min_value := cfg.threshold MagicNumbersThresholds.min_value 2
    let max_value := cfg.threshold MagicNumbersThresholds.max_value 1000
    let ms := find_magic_numbers tree whitelist min_value max_value
    (magicKeys ms).filterMap (fun v =>
      let lns := magicLines ms v
      if min_occurrences ≤ lns.length then
        some { file_path := file_path
               line_number := lns.headI
               severity := "medium"
               magic_number := v
               occurrences := lns.length
               line_numbers := lns
               min_occurrences := min_occurrences
               whitelist := whitelist }
      else none)

/-! ## FeatureEnvyDetector -/

structure FeatureEnvyThresholds where
  min_foreign_accesses : Option ℚ
  foreign_access_ratio : Option ℚ

/-- `_is_foreign_access`: the root `Name` of the chain under an `Attribute`
is a known class other than the current one. -/
def is_foreign_access (classNames : List String) (class_name : String) :
    PyExpr → Bool
  | .attribute (.name id) _ => classNames.contains id && id ≠ class_name
  | .attribute v@(.attribute _ _) _ => is_foreign_access classNames class_name v
  | _ => false

/-- `_is_self_access`. -/
def is_self_access : PyExpr → Bool
  | .attribute (.name id) _ => id = "self"
  | .attribute v@(.attribute _ _) _ => is_self_access v
  | _ => false

/-- `_get_class_name`. -/
def get_class_name : PyExpr → String
  | .attribute (.name id) _ => id
  | .attribute v@(.attribute _ _) _ => get_class_name v
  | _ => "unknown"

/-- `_is_foreign_method_call`. -/
def is_foreign_method_call (classNames : List String) (class_name : String) :
    PyExpr → Bool
  | .call (.attribute (.name id) _) _ => classNames.contains id && id ≠ class_name
  | .call (.attribute v@(.attribute _ _) _) _ =>
      is_foreign_access classNames class_name v
  | _ => false

/-- `_is_self_method_call`. -/
def is_self_method_call : PyExpr → Bool
  | .call (.attribute (.name id) _) _ => id = "self"
  | .call (.attribute v@(.attribute _ _) _) _ => is_self_access v
  | _ => false

/-- `_get_called_object_class` (its `classes` parameter is unused in the
source). -/
def get_called_object_class : PyExpr → String
  | .call (.attribute (.name id) _) _ => id
  | .call (.attribute v@(.attribute _ _) _) _ => get_class_name v
  | _ => "unknown"

/-- Insertion into the `foreign_classes` set, modelled as a duplicate-free
list in insertion order. -/
def setAdd (l : List String) (x : String) : List String :=
  if l.contains x then l else l ++ [x]

/-- One step of the first accumulation loop of `_analyze_feature_envy`
(the general classification of one `Attribute` node); the accumulator is
`(foreign_accesses, self_accesses, foreign_classes)`. -/
def envyStep1 (classNames : List String) (class_name : String)
    (acc : Nat × Nat × List String) (node : PyExpr) : Nat × Nat × List String :=
  match node with
  | .attribute v _ =>
    match v with
    | .name var_name =>
      if classNames.contains var_name && var_name ≠ class_name then
        (acc.1 + 1, acc.2.1, setAdd acc.2.2 var_name)
      else if var_name = "self" then (acc.1, acc.2.1 + 1, acc.2.2)
      else acc
    | .attribute _ _ =>
      if is_foreign_access classNames class_name v then
        (acc.1 + 1, acc.2.1, setAdd acc.2.2 (get_class_name v))
      else if is_self_access v then (acc.1, acc.2.1 + 1, acc.2.2)
      else acc
    | .call _ _ =>
      if is_foreign_method_call classNames class_name v then
        (acc.1 + 1, acc.2.1, setAdd acc.2.2 (get_called_object_class v))
      else if is_self_method_call v then (acc.1, acc.2.1 + 1, acc.2.2)
      else acc
    | _ => acc
  | _ => acc

/-- The fixed first-hop names of the supplementary `self.X.…` heuristic. -/
def commonPatternNames : List String :=
  ["restaurant", "manager", "service", "store", "data"]

/-- One step of the second loop of `_analyze_feature_envy`: a two-level
(`self.h.attr`) or three-level (`self.h.x.attr`) chain rooted at `self`
whose first hop is one of the fixed names adds one foreign access to the
synthetic class `ExternalService`; the accumulator is
`(foreign_accesses, foreign_classes)`. -/
def envyStep2 (acc : Nat × List String) (node : PyExpr) : Nat × List String :=
  match node with
  | .attribute (.attribute (.name "self") h) _ =>
    if commonPatternNames.contains h then (acc.1 + 1, setAdd acc.2 "ExternalService")
    else acc
  | .attribute (.attribute (.attribute (.name "self") h) _) _ =>
    if commonPatternNames.contains h then (acc.1 + 1, setAdd acc.2 "ExternalService")
    else acc
  | _ => acc

/-- The result record of `_analyze_feature_envy`. -/
structure EnvyAnalysis where
  is_feature_envy : Bool
  foreign_accesses : Nat
  self_accesses : Nat
  foreign_ratio : ℚ
  foreign_classes : List String
  deriving DecidableEq, Repr

/-- `_analyze_feature_envy`: both walks over the method's nodes, the ratio
against `max(self_accesses, 1)`, and the firing decision with the fixed
constants 2 and 0.5. -/
def analyze_feature_envy (classNames : List String) (class_name : String)
    (method_body : List PyStmt) : EnvyAnalysis :=
  let nodes := stmtListExprs method_body
  let s1 := nodes.foldl (envyStep1 classNames class_name) (0, 0, [])
  let s2 := nodes.foldl envyStep2 (s1.1, s1.2.2)
  let foreign_accesses := s2.1
  let self_accesses := s1.2.1
  let foreign_ratio := (foreign_accesses : ℚ) / ((max self_accesses 1 : Nat) : ℚ)
  { is_feature_envy := decide (2 ≤ foreign_accesses) && decide ((1 : ℚ)/2 ≤ foreign_ratio)
    foreign_accesses := foreign_accesses
    self_accesses := self_accesses
    foreign_ratio := foreign_ratio
    foreign_classes := s2.2 }

structure FeatureEnvySmell where
  file_path : String
  line_number : Nat
  severity : String
  method_name : String
  class_name : String
  foreign_accesses : Nat
  self_accesses : Nat
  foreign_ratio : ℚ
  min_foreign_accesses : ℚ
  foreign_access_ratio : ℚ
  foreign_classes : List String
  deriving DecidableEq, Repr

/-- The `classes` dict: `classes[node.name] = node` over the walked class
definitions (a repeated name keeps its first position but the last node). -/
def insertClass (m : List (String × ClassNode)) (c : ClassNode) :
    List (String × ClassNode) :=
  if m.any (fun p => p.1 = c.name) then
    m.map (fun p => if p.1 = c.name then (c.name, c) else p)
  else m ++ [(c.name, c)]

def classesOf (tree : PyModule) : List (String × ClassNode) :=
  (classDefsOf tree).foldl insertClass []

/-- The methods of one class: function definitions (sync or async) directly
in the class body. -/
def methodsOf (c : ClassNode) : List FuncNode :=
  c.body.filterMap (fun s =>
    match s with
    | .functionDef n l a b ia => some ⟨n, l, a, b, ia⟩
    | _ => none)

/-- The finding `FeatureEnvyDetector.detect` builds for one flagged
method. -/
def mkEnvySmell (mfa far : ℚ) (file_path class_name : String) (m : FuncNode)
    (ea : EnvyAnalysis) : FeatureEnvySmell :=
  { file_path := file_path
    line_number := m.lineno
    severity := "medium"
    method_name := m.name
    class_name := class_name
    foreign_accesses := ea.foreign_accesses
    self_accesses := ea.self_accesses
    foreign_ratio := ea.foreign_ratio
    min_foreign_accesses := mfa
    foreign_access_ratio := far
    foreign_classes := ea.foreign_classes }

/-- The enabled-and-parsed part of `FeatureEnvyDetector.detect`, with the
two configured thresholds (which reach only the finding's details) passed
explicitly. -/
def FeatureEnvy_run (mfa far : ℚ) (file_path : String) (tree : PyModule) :
    List FeatureEnvySmell :=
  let classes := classesOf tree
  let classNames := classes.map Prod.fst
  (classes.map (fun p =>
    (methodsOf p.2).filterMap (fun m =>
      let ea := analyze_feature_envy classNames p.1 m.body
      if ea.is_feature_envy then some (mkEnvySmell mfa far file_path p.1 m ea)
      else none))).flatten

/-- `FeatureEnvyDetector.detect`. -/
def FeatureEnvy_detect (cfg : DetectorEntry FeatureEnvyThresholds)
    (file_path : String) (tree? : Option PyModule) : List FeatureEnvySmell :=
  if !cfg.is_enabled then [] else
  match tree? with
  | none => []
  | some tree =>
    FeatureEnvy_run
      (cfg.threshold FeatureEnvyThresholds.min_foreign_accesses 3)
      (cfg.threshold FeatureEnvyThresholds.foreign_access_ratio (3/2))
      file_path tree

/-! ## DuplicatedCodeDetector -/

structure DuplicatedCodeThresholds where
  min_similarity : Option ℚ
  min_chunk_size : Option Nat

structure DuplicatedCodeSmell where
  file_path : String
  line_number : Nat
  severity : String
  function1 : String
  function2 : String
  function1_line : Nat
  function2_line : Nat
  similarity : ℚ
  min_similarity : ℚ
  function1_lines : Nat
  function2_lines : Nat
  deriving DecidableEq, Repr

/-- The ordered pairs `(functions[i], functions[j])`, `i < j`, enumerated
by the nested loops of `DuplicatedCodeDetector.detect`. -/
def pairsOf : List α → List (α × α)
  | [] => []
  | x :: xs => (xs.map (fun y => (x, y))) ++ pairsOf xs

/-- The finding `DuplicatedCodeDetector.detect` builds for one compared
pair `p = ((name1, lineno1), (name2, lineno2))`, anchored at the first
function's line. -/
def mkDupSmell (min_similarity : ℚ) (file_path : String)
    (p : (String × Nat) × (String × Nat)) (similarity : ℚ)
    (func1_lines func2_lines : Nat) : DuplicatedCodeSmell :=
  { file_path := file_path
    line_number := p.1.2
    severity := "medium"
    function1 := p.1.1
    function2 := p.2.1
    function1_line := p.1.2
    function2_line := p.2.2
    similarity := similarity
    min_similarity := min_similarity
    function1_lines := func1_lines
    function2_lines := func2_lines }

/-- `DuplicatedCodeDetector.detect`: similarity first, then the chunk-size
check on both extents. -/
def DuplicatedCode_detect (cfg : DetectorEntry DuplicatedCodeThresholds)
    (file_path : String) (tree? : Option PyModule) (src : String) :
    List DuplicatedCodeSmell :=
  if !cfg.is_enabled then [] else
  match tree? with
  | none => []
  | some tree =>
    let min_similarity := cfg.threshold DuplicatedCodeThresholds.min_similarity (4/5)
    let min_chunk_size := cfg.threshold DuplicatedCodeThresholds.min_chunk_size 3
    let functions := (functionDefsOf tree).map (fun f => (f.name, f.lineno))
    (pairsOf functions).filterMap (fun p =>
      let similarity := calculate_similarity src p.1.2 p.2.2
      if min_similarity ≤ similarity then
        let func1_lines := count_extent src p.1.2
        let func2_lines := count_extent src p.2.2
        if min_chunk_size ≤ func1_lines ∧ min_chunk_size ≤ func2_lines then
          some (mkDupSmell min_similarity file_path p similarity func1_lines func2_lines)
        else none
      else none)

/-! ## Claim-side (specification) definitions

These follow the wording of the specification for the refinement-style
claims, to be compared with the definitions above that were translated
from the source. -/

/-- The Jaccard index of the whitespace-token sets of two strings (division
is the `ℚ` one; it is only used where the union is non-empty). -/
def tokenJaccard (s1 s2 : String) : ℚ :=
  ((((pyTokens s1).toFinset ∩ (pyTokens s2).toFinset).card : ℚ)) /
    ((((pyTokens s1).toFinset ∪ (pyTokens s2).toFinset).card : ℚ))

/-- The token-similarity convention exactly as the claim states it:
Jaccard index, `1.0` when both normalized bodies are empty, `0.0` when
exactly one is empty. -/
def tokenSimilaritySpecC3 (s1 s2 : String) : ℚ :=
  if s1 = "" ∧ s2 = "" then 1
  else if s1 = "" ∨ s2 = "" then 0
  else tokenJaccard s1 s2

/-- The amended convention: `0.0` whenever either normalized body is empty
(the source's early emptiness guard precedes its both-empty-token branch),
Jaccard index otherwise. -/
def tokenSimilarityAmendedC3 (s1 s2 : String) : ℚ :=
  if s1 = "" ∨ s2 = "" then 0 else tokenJaccard s1 s2

mutual

/-- The number of names bound by a target, as the claim counts fields:
one per name, a tuple-unpacking target contributing one per name it
binds. -/
def targetNameCount : PyTarget → Nat
  | .tname _ => 1
  | .ttuple ts => targetListNameCount ts
  | .texpr _ => 0

def targetListNameCount : List PyTarget → Nat
  | [] => 0
  | t :: ts => targetNameCount t + targetListNameCount ts

end

/-- The field count exactly as the claim states it: target names of
top-level assignments, each name counted separately, plus top-level
annotated assignments. -/
def fieldsSpecC4 (body : List PyStmt) : Nat :=
  (body.map (fun s =>
    match s with
    | .assign ts _ => targetListNameCount ts
    | .annAssign _ _ => 1
    | _ => 0)).sum

/-- The amended field count: each top-level assignment contributes the
number of its targets (a tuple-unpacking target is one target however many
names it binds; a chained assignment has one target per `=`), plus
top-level annotated assignments. -/
def fieldsAmendedC4 (body : List PyStmt) : Nat :=
  (body.map (fun s =>
    match s with
    | .assign ts _ => ts.length
    | .annAssign _ _ => 1
    | _ => 0)).sum

/-- A `FeatureEnvySmell` without the two copied configuration thresholds
(`min_foreign_accesses`, `foreign_access_ratio`): everything the firing
decision and the analysis itself produce. -/
def FeatureEnvySmell.core (s : FeatureEnvySmell) :
    String × Nat × String × String × String × Nat × Nat × ℚ × List String :=
  (s.file_path, s.line_number, s.severity, s.method_name, s.class_name,
   s.foreign_accesses, s.self_accesses, s.foreign_ratio, s.foreign_classes)

/-! ## Concrete example data used by counterexamples and witnesses -/

/-- `retries = 42` followed by two bare uses of `42` (lines 1, 2, 3). -/
def exMagicModule : PyModule :=
  [.assign [.tname "retries"] (.numConst 42 1),
   .exprStmt (.call (.name "process") [.numConst 42 2]),
   .exprStmt (.call (.name "handle") [.numConst 42 3])]

/-- A method of class `A` with four `self.a` accesses and two `B.x`
accesses (`B` a known class): 2 foreign accesses, 4 self accesses. -/
def exEnvyBody : List PyStmt :=
  [.exprStmt (.attribute (.name "self") "a"),
   .exprStmt (.attribute (.name "self") "a"),
   .exprStmt (.attribute (.name "self") "a"),
   .exprStmt (.attribute (.name "self") "a"),
   .exprStmt (.attribute (.name "B") "x"),
   .exprStmt (.attribute (.name "B") "x")]

def exEnvyTree : PyModule :=
  [.classDef "A" 1 [.functionDef "m" 2 ⟨[], [], []⟩ exEnvyBody false],
   .classDef "B" 10 [.passStmt]]

/-- Two one-line function definitions whose extracted bodies are both the
empty string (the dedent to column 0 happens on the very next line). -/
def exDupEmptySrc : String :=
  "def f(): pass\ndef g(): pass"

def exDupEmptyTree : PyModule :=
  [.functionDef "f" 1 ⟨[], [], []⟩ [.passStmt] false,
   .functionDef "g" 2 ⟨[], [], []⟩ [.passStmt] false]

/-- Two three-line functions with identical bodies. -/
def exDupSrc : String :=
  "def f():\n    a = 1\n    b = 2\ndef g():\n    a = 1\n    b = 2\nx = 0"

def exDupTree : PyModule :=
  [.functionDef "f" 1 ⟨[], [], []⟩
     [.assign [.tname "a"] (.numConst 1 2), .assign [.tname "b"] (.numConst 2 3)] false,
   .functionDef "g" 4 ⟨[], [], []⟩
     [.assign [.tname "a"] (.numConst 1 5), .assign [.tname "b"] (.numConst 2 6)] false]

/-- A three-line function (`lines = 3`) with straight-line body
(`complexity = 1`), inside the source text it is measured against. -/
def exLongSrc : String :=
  "def f():\n    x = 1\n    y = 2\nz = 3"

def exLongBody : List PyStmt :=
  [.assign [.tname "x"] (.numConst 1 2), .assign [.tname "y"] (.numConst 2 3)]

/-- A four-line function with one conditional (`complexity = 2`). -/
def exLong2Src : String :=
  "def f():\n    if x:\n        y = 1\n    z = 2\nq = 3"

def exLong2Body : List PyStmt :=
  [.ifStmt (.name "x") [.assign [.tname "y"] (.numConst 1 3)] [],
   .assign [.tname "z"] (.numConst 2 4)]

/-- A class whose single statement is the tuple unpacking `a, b = 1, 2`. -/
def exTupleClassBody : List PyStmt :=
  [.assign [.ttuple [.tname "a", .tname "b"]] (.tupleE [.numConst 1 2, .numConst 2 2])]

/-! ## Theorems -/

/-- Helper: the `_count_fields` fold with an arbitrary accumulator. -/
theorem count_fields_fold (body : List PyStmt) : ∀ acc : Nat,
    body.foldl (fun acc s =>
      match s with
      | PyStmt.assign targets _ => acc + targets.length
      | PyStmt.annAssign _ _ => acc + 1
      | _ => acc) acc = acc + fieldsAmendedC4 body := by
  induction body with
  | nil => intro acc; simp [fieldsAmendedC4]
  | cons s ss ih =>
    intro acc
    rw [List.foldl_cons]
    cases s <;> rw [ih] <;> simp [fieldsAmendedC4] <;> omega

/-- C9: for every detector whose configuration entry is a dict with
`enabled: false`, `detect` returns the empty list for every file path,
tree and source text — the guard precedes the parse and every traversal. -/
theorem C9_disabled_detect_empty :
    (∀ (θ : LongMethodThresholds) fp t? src,
       LongMethod_detect (.dict (some false) θ) fp t? src = []) ∧
    (∀ (θ : GodClassThresholds) fp t? src,
       GodClass_detect (.dict (some false) θ) fp t? src = []) ∧
    (∀ (θ : LargeParameterListThresholds) fp t?,
       LargeParameterList_detect (.dict (some false) θ) fp t? = []) ∧
    (∀ (θ : MagicNumbersThresholds) fp t?,
       MagicNumbers_detect (.dict (some false) θ) fp t? = []) ∧
    (∀ (θ : FeatureEnvyThresholds) fp t?,
       FeatureEnvy_detect (.dict (some false) θ) fp t? = []) ∧
    (∀ (θ : DuplicatedCodeThresholds) fp t? src,
       DuplicatedCode_detect (.dict (some false) θ) fp t? src = []) := by
  refine ⟨fun θ fp t? src => rfl, fun θ fp t? src => rfl, fun θ fp t? => rfl,
    fun θ fp t? => rfl, fun θ fp t? => rfl, fun θ fp t? src => rfl⟩

/-- C2: the claim's constant-name criterion does not match the code.  The
code upper-cases the target name before its `isupper()` check
(`name = target.id.upper()`), so the all-lowercase name `retries` passes
it, and the `42` of `retries = 42` is excluded from the occurrence count:
on `retries = 42` (line 1) plus bare uses of `42` on lines 2 and 3, only
the latter two survive. -/
theorem C2_constant_check_at_failing_input :
    looks_like_constant "retries" = true ∧
    find_magic_numbers exMagicModule [0, 1, -1] 2 1000 = [(42, 2), (42, 3)] := by
  exact ⟨rfl, rfl⟩

/-- C4 counterexample: the tuple-unpacking assignment `a, b = 1, 2` as the
single class-body statement.  `_count_fields` adds `len(node.targets)`,
and the tuple is one element of `targets`, so the code counts 1 where the
claim counts one per bound name (2). -/
theorem C4_counterexample :
    count_fields exTupleClassBody = 1 ∧ fieldsSpecC4 exTupleClassBody = 2 ∧
    count_fields exTupleClassBody ≠ fieldsSpecC4 exTupleClassBody := by
  refine ⟨rfl, rfl, by decide⟩

/-- C4 (amended): for every class body, the GodClass fields count equals
the number of assignment targets of the top-level assignment statements
(a tuple-unpacking target counting once however many names it binds, a
chained assignment counting once per target) plus the number of top-level
annotated assignments; statements inside the class's methods are never
counted (appending a method to the body, whatever assignments it
contains, leaves the count unchanged). -/
theorem C4_fields_amended :
    (∀ body : List PyStmt, count_fields body = fieldsAmendedC4 body) ∧
    (∀ (body : List PyStmt) n l a mbody ia,
       count_fields (body ++ [PyStmt.functionDef n l a mbody ia]) = count_fields body) := by
  have hmain : ∀ body : List PyStmt, count_fields body = fieldsAmendedC4 body := by
    intro body
    simpa using count_fields_fold body 0
  refine ⟨hmain, fun body n l a mbody ia => ?_⟩
  rw [hmain, hmain, fieldsAmendedC4, fieldsAmendedC4, List.map_append, List.sum_append]
  simp

/-- C6: the LongMethod detector analyzes only synchronous function
definitions (a tree whose function definitions are all async yields no
findings, whatever the configuration), and its two checks fire
independently: with `lines = max_lines + 1` and `complexity = 1 ≤
max_complexity` the method yields exactly the line-count finding, and with
both thresholds exceeded it yields exactly the two findings; moreover for
an enabled configuration `detect` is precisely the concatenation of
`_analyze_method` over the synchronous function definitions of the tree. -/
theorem C6_long_method :
    (∀ (cfg : DetectorEntry LongMethodThresholds) fp tree src,
       (∀ f ∈ functionDefsOf tree, f.is_async = true) →
       LongMethod_detect cfg fp (some tree) src = []) ∧
    (∀ fp src n lineno body L C, count_extent src lineno = L + 1 →
       calculate_complexity body = 1 → 1 ≤ C →
       analyze_method fp src n lineno body L C =
         [line_smell fp n lineno (L + 1) 1 L C]) ∧
    (∀ fp src n lineno body L C, L < count_extent src lineno →
       C < calculate_complexity body →
       analyze_method fp src n lineno body L C =
         [line_smell fp n lineno (count_extent src lineno) (calculate_complexity body) L C,
          complexity_smell fp n lineno (count_extent src lineno) (calculate_complexity body) L C]) ∧
    (∀ (cfg : DetectorEntry LongMethodThresholds) fp tree src, cfg.is_enabled = true →
       LongMethod_detect cfg fp (some tree) src =
         (((functionDefsOf tree).filter (fun f => !f.is_async)).map
           (fun f => analyze_method fp src f.name f.lineno f.body
             (cfg.threshold LongMethodThresholds.max_lines 30)
             (cfg.threshold LongMethodThresholds.max_complexity 10))).flatten) := by
  refine ⟨?_, ?_, ?_, ?_⟩
  · intro cfg fp tree src hall
    unfold LongMethod_detect
    have hfilter : (functionDefsOf tree).filter (fun f => !f.is_async) = [] := by
      rw [List.filter_eq_nil_iff]
      intro f hf
      simp [hall f hf]
    split
    · rfl
    · simp [hfilter]
  · intro fp src n lineno body L C h1 h2 hC
    unfold analyze_method
    rw [h1, h2]
    dsimp only
    rw [if_pos (Nat.lt_succ_self L), if_neg (by omega)]
    rfl
  · intro fp src n lineno body L C h1 h2
    unfold analyze_method
    dsimp only
    rw [if_pos h1, if_pos h2]
    rfl
  · intro cfg fp tree src h
    unfold LongMethod_detect
    rw [h]
    rfl

/-- C6 witness: the three hypothesis-bearing conjuncts at concrete inputs:
an async-only tree yields nothing; the three-line straight-line function of
`exLongSrc` with `max_lines = 2` yields exactly its line-count finding; the
four-line function of `exLong2Src` with one conditional, `max_lines = 2`
and `max_complexity = 1`, yields exactly its two findings. -/
theorem C6_long_method_witness :
    LongMethod_detect (.dict (some true) ⟨some 2, some 10⟩) "w.py"
      (some [PyStmt.functionDef "af" 1 ⟨[], [], []⟩ [PyStmt.passStmt] true]) "x" = [] ∧
    analyze_method "w.py" exLongSrc "f" 1 exLongBody 2 10 =
      [line_smell "w.py" "f" 1 3 1 2 10] ∧
    analyze_method "w.py" exLong2Src "f" 1 exLong2Body 2 1 =
      [line_smell "w.py" "f" 1 4 2 2 1, complexity_smell "w.py" "f" 1 4 2 2 1] := by
  refine ⟨?_, ?_, ?_⟩
  · exact C6_long_method.1 (.dict (some true) ⟨some 2, some 10⟩) "w.py" _ "x" (by decide)
  · exact C6_long_method.2.1 "w.py" exLongSrc "f" 1 exLongBody 2 10 (by decide) (by decide)
      (by decide)
  · exact C6_long_method.2.2.1 "w.py" exLong2Src "f" 1 exLong2Body 2 1 (by decide) (by decide)

/-- Helper: the enabled LargeParameterList detector on a parsed tree is the
filter of its per-function rule. -/
theorem LPL_detect_enabled (cfg : DetectorEntry LargeParameterListThresholds)
    (fp : String) (tree : PyModule) (h : cfg.is_enabled = true) :
    LargeParameterList_detect cfg fp (some tree) =
      (functionDefsOf tree).filterMap (fun f =>
        if cfg.threshold LargeParameterListThresholds.max_parameters 5 <
             count_parameters f.args then
          some (mkLargeParamSmell fp
            (cfg.threshold LargeParameterListThresholds.max_parameters 5) f)
        else none) := by
  unfold LargeParameterList_detect
  rw [h]
  rfl

/-- C7: with `count` = positional + keyword-only + positional-only
parameters and `m` the configured `max_parameters`, an enabled detector
emits per function exactly the rule `count > m` (first conjunct); a
function with `count = m` yields no finding (whatever the entry's enabled
state); with `count = m + 1` (and `m ≥ 1`, without which the claim's own
`high`-exactly-when rule already asks for `high`) it yields exactly one
finding, of severity `medium`; with `count = 2m + 1` exactly one finding of
severity `high`. -/
theorem C7_large_parameter_list :
    (∀ (cfg : DetectorEntry LargeParameterListThresholds) fp tree,
       cfg.is_enabled = true →
       LargeParameterList_detect cfg fp (some tree) =
         (functionDefsOf tree).filterMap (fun f =>
           if cfg.threshold LargeParameterListThresholds.max_parameters 5 <
                count_parameters f.args then
             some (mkLargeParamSmell fp
               (cfg.threshold LargeParameterListThresholds.max_parameters 5) f)
           else none)) ∧
    (∀ (cfg : DetectorEntry LargeParameterListThresholds) fp n l a ia,
       count_parameters a = cfg.threshold LargeParameterListThresholds.max_parameters 5 →
       LargeParameterList_detect cfg fp
         (some [PyStmt.functionDef n l a [PyStmt.passStmt] ia]) = []) ∧
    (∀ (cfg : DetectorEntry LargeParameterListThresholds) fp n l a ia,
       cfg.is_enabled = true →
       1 ≤ cfg.threshold LargeParameterListThresholds.max_parameters 5 →
       count_parameters a =
         cfg.threshold LargeParameterListThresholds.max_parameters 5 + 1 →
       (LargeParameterList_detect cfg fp
          (some [PyStmt.functionDef n l a [PyStmt.passStmt] ia])).map
          (fun s => s.severity) = ["medium"]) ∧
    (∀ (cfg : DetectorEntry LargeParameterListThresholds) fp n l a ia,
       cfg.is_enabled = true →
       count_parameters a =
         2 * cfg.threshold LargeParameterListThresholds.max_parameters 5 + 1 →
       (LargeParameterList_detect cfg fp
          (some [PyStmt.functionDef n l a [PyStmt.passStmt] ia])).map
          (fun s => s.severity) = ["high"]) := by
  have hsingle : ∀ n l a ia,
      functionDefsOf [PyStmt.functionDef n l a [PyStmt.passStmt] ia] =
        [⟨n, l, a, [PyStmt.passStmt], ia⟩] := fun n l a ia => rfl
  refine ⟨LPL_detect_enabled, ?_, ?_, ?_⟩
  · intro cfg fp n l a ia hcount
    cases hb : cfg.is_enabled with
    | false => unfold LargeParameterList_detect; rw [hb]; rfl
    | true =>
      rw [LPL_detect_enabled cfg fp _ hb, hsingle]
      simp [List.filterMap_cons, hcount]
  · intro cfg fp n l a ia he hge hcount
    rw [LPL_detect_enabled cfg fp _ he, hsingle]
    simp only [List.filterMap_cons, List.filterMap_nil, hcount]
    rw [if_pos (Nat.lt_succ_self _)]
    simp only [List.map_cons, List.map_nil, mkLargeParamSmell, hcount]
    rw [if_neg (by omega)]
  · intro cfg fp n l a ia he hcount
    rw [LPL_detect_enabled cfg fp _ he, hsingle]
    simp only [List.filterMap_cons, List.filterMap_nil, hcount]
    rw [if_pos (by omega)]
    simp only [List.map_cons, List.map_nil, mkLargeParamSmell, hcount]
    rw [if_pos (by omega)]

/-- C7 witness: with `max_parameters = 2`: a two-parameter function gives
no finding, a three-parameter function one `medium` finding, a
five-parameter function one `high` finding. -/
theorem C7_large_parameter_list_witness :
    LargeParameterList_detect (.dict (some true) ⟨some 2⟩) "w.py"
      (some [PyStmt.functionDef "f" 1 ⟨[], ["a", "b"], []⟩ [PyStmt.passStmt] false]) = [] ∧
    (LargeParameterList_detect (.dict (some true) ⟨some 2⟩) "w.py"
      (some [PyStmt.functionDef "f" 1 ⟨[], ["a", "b", "c"], []⟩
        [PyStmt.passStmt] false])).map (fun s => s.severity) = ["medium"] ∧
    (LargeParameterList_detect (.dict (some true) ⟨some 2⟩) "w.py"
      (some [PyStmt.functionDef "f" 1 ⟨[], ["a", "b", "c", "d", "e"], []⟩
        [PyStmt.passStmt] false])).map (fun s => s.severity) = ["high"] := by
  refine ⟨?_, ?_, ?_⟩
  · exact C7_large_parameter_list.2.1 (.dict (some true) ⟨some 2⟩) "w.py" "f" 1
      ⟨[], ["a", "b"], []⟩ false (by decide)
  · exact C7_large_parameter_list.2.2.1 (.dict (some true) ⟨some 2⟩) "w.py" "f" 1
      ⟨[], ["a", "b", "c"], []⟩ false rfl (by decide) (by decide)
  · exact C7_large_parameter_list.2.2.2 (.dict (some true) ⟨some 2⟩) "w.py" "f" 1
      ⟨[], ["a", "b", "c", "d", "e"], []⟩ false rfl (by decide)

/-- Helper: `foreign_ratio` is by definition
`foreign_accesses / max(self_accesses, 1)`. -/
theorem analyze_foreign_ratio (classNames : List String) (class_name : String)
    (body : List PyStmt) :
    (analyze_feature_envy classNames class_name body).foreign_ratio =
      ((analyze_feature_envy classNames class_name body).foreign_accesses : ℚ) /
        (((max (analyze_feature_envy classNames class_name body).self_accesses 1 : Nat)) : ℚ) :=
  rfl

/-- Helper: the firing bit of the analysis is exactly the conjunction of
the two fixed-constant conditions. -/
theorem is_feature_envy_iff (classNames : List String) (class_name : String)
    (body : List PyStmt) :
    ((analyze_feature_envy classNames class_name body).is_feature_envy = true) ↔
      (2 ≤ (analyze_feature_envy classNames class_name body).foreign_accesses ∧
       (1 : ℚ)/2 ≤ (analyze_feature_envy classNames class_name body).foreign_ratio) := by
  unfold analyze_feature_envy
  simp [Bool.and_eq_true, decide_eq_true_eq]

/-- Helper: the per-method findings of `FeatureEnvy_run`, stripped of the
two copied configuration values, do not depend on those values. -/
theorem FeatureEnvy_run_core (mfa far mfa' far' : ℚ) (fp : String) (tree : PyModule) :
    (FeatureEnvy_run mfa far fp tree).map FeatureEnvySmell.core =
      (FeatureEnvy_run mfa' far' fp tree).map FeatureEnvySmell.core := by
  unfold FeatureEnvy_run
  rw [List.map_flatten, List.map_flatten]
  congr 1
  rw [List.map_map, List.map_map]
  apply List.map_congr_left
  intro p _
  simp only [Function.comp_apply, List.map_filterMap]
  congr 1
  funext m
  by_cases h :
      (analyze_feature_envy ((classesOf tree).map Prod.fst) p.1 m.body).is_feature_envy
  · simp [h, mkEnvySmell, FeatureEnvySmell.core]
  · simp [h]

/-- Helper: the example method has 2 foreign accesses. -/
theorem exEnvy_foreign :
    (analyze_feature_envy ["A", "B"] "A" exEnvyBody).foreign_accesses = 2 := rfl

/-- Helper: the example method has 4 self accesses. -/
theorem exEnvy_self :
    (analyze_feature_envy ["A", "B"] "A" exEnvyBody).self_accesses = 4 := rfl

/-- Helper: the example method (2 foreign, 4 self, ratio exactly 0.5)
fires the fixed-constant rule. -/
theorem exEnvy_fires :
    (analyze_feature_envy ["A", "B"] "A" exEnvyBody).is_feature_envy = true := by
  rw [is_feature_envy_iff, analyze_foreign_ratio, exEnvy_foreign, exEnvy_self]
  norm_num

/-- Helper: on the example tree, `FeatureEnvy_run` emits exactly the
finding for method `m`, whatever the two copied threshold values. -/
theorem exEnvy_run_eq (mfa far : ℚ) (fp : String) :
    FeatureEnvy_run mfa far fp exEnvyTree =
      [mkEnvySmell mfa far fp "A"
        ⟨"m", 2, ⟨[], [], []⟩, exEnvyBody, false⟩
        (analyze_feature_envy ["A", "B"] "A" exEnvyBody)] := by
  unfold FeatureEnvy_run
  rw [show classesOf exEnvyTree =
    [("A", ⟨"A", 1, [PyStmt.functionDef "m" 2 ⟨[], [], []⟩ exEnvyBody false]⟩),
     ("B", ⟨"B", 10, [PyStmt.passStmt]⟩)] from rfl]
  simp [methodsOf, exEnvy_fires]

/-- C1: the FeatureEnvy firing decision uses the fixed constants 2 and 0.5
and not the configured thresholds: (1) under any two enabled
configurations the findings agree except for the two copied threshold
fields; (2) for every method the analysis fires exactly when
`foreign_accesses ≥ 2` and `foreign_accesses / max(self_accesses, 1) ≥
0.5`; (3) every emitted finding satisfies those two fixed conditions;
(4) the method of `exEnvyTree` with exactly 2 foreign and 4 self accesses
is flagged whatever the two configured threshold values are. -/
theorem C1_feature_envy_fixed_constants :
    (∀ (cfg cfg' : DetectorEntry FeatureEnvyThresholds) fp t?,
       cfg.is_enabled = true → cfg'.is_enabled = true →
       (FeatureEnvy_detect cfg fp t?).map FeatureEnvySmell.core =
         (FeatureEnvy_detect cfg' fp t?).map FeatureEnvySmell.core) ∧
    (∀ (classNames : List String) (class_name : String) (body : List PyStmt),
       ((analyze_feature_envy classNames class_name body).is_feature_envy = true ↔
         (2 ≤ (analyze_feature_envy classNames class_name body).foreign_accesses ∧
          (1 : ℚ)/2 ≤
            ((analyze_feature_envy classNames class_name body).foreign_accesses : ℚ) /
              (((max (analyze_feature_envy classNames class_name body).self_accesses 1 :
                  Nat)) : ℚ)))) ∧
    (∀ (cfg : DetectorEntry FeatureEnvyThresholds) fp t? s,
       s ∈ FeatureEnvy_detect cfg fp t? →
       2 ≤ s.foreign_accesses ∧ (1 : ℚ)/2 ≤ s.foreign_ratio) ∧
    (∀ mfa far : ℚ,
       (FeatureEnvy_run mfa far "ex.py" exEnvyTree).map
         (fun s => (s.method_name, s.class_name, s.foreign_accesses, s.self_accesses)) =
         [("m", "A", 2, 4)]) := by
  refine ⟨?_, ?_, ?_, ?_⟩
  · intro cfg cfg' fp t? h h'
    unfold FeatureEnvy_detect
    rw [h, h']
    cases t? with
    | none => rfl
    | some tree => exact FeatureEnvy_run_core _ _ _ _ fp tree
  · intro classNames class_name body
    rw [← analyze_foreign_ratio]
    exact is_feature_envy_iff classNames class_name body
  · intro cfg fp t? s hs
    unfold FeatureEnvy_detect at hs
    split at hs
    · exact absurd hs (List.not_mem_nil s)
    · cases t? with
      | none => exact absurd hs (List.not_mem_nil s)
      | some tree =>
        unfold FeatureEnvy_run at hs
        rw [List.mem_flatten] at hs
        obtain ⟨l, hl, hsl⟩ := hs
        rw [List.mem_map] at hl
        obtain ⟨p, hp, rfl⟩ := hl
        rw [List.mem_filterMap] at hsl
        obtain ⟨m, hm, hsome⟩ := hsl
        dsimp only at hsome
        split at hsome
        · rename_i hfires
          cases hsome
          have h2 := (is_feature_envy_iff ((classesOf tree).map Prod.fst) p.1 m.body).mp hfires
          exact ⟨h2.1, h2.2⟩
        · exact absurd hsome (by simp)
  · intro mfa far
    rw [exEnvy_run_eq]
    rfl

/-- C1 witness: two enabled configurations with different
`min_foreign_accesses` / `foreign_access_ratio` values produce the same
findings on `exEnvyTree` up to the two copied threshold fields, and the
emitted finding satisfies the fixed conditions. -/
theorem C1_feature_envy_witness :
    (FeatureEnvy_detect (.dict (some true) ⟨some 100, some 9⟩) "ex.py"
        (some exEnvyTree)).map FeatureEnvySmell.core =
      (FeatureEnvy_detect (.missing) "ex.py" (some exEnvyTree)).map
        FeatureEnvySmell.core ∧
    (2 ≤ (mkEnvySmell 100 9 "ex.py" "A" ⟨"m", 2, ⟨[], [], []⟩, exEnvyBody, false⟩
        (analyze_feature_envy ["A", "B"] "A" exEnvyBody)).foreign_accesses ∧
     (1 : ℚ)/2 ≤ (mkEnvySmell 100 9 "ex.py" "A" ⟨"m", 2, ⟨[], [], []⟩, exEnvyBody, false⟩
        (analyze_feature_envy ["A", "B"] "A" exEnvyBody)).foreign_ratio) := by
  constructor
  · exact C1_feature_envy_fixed_constants.1 (.dict (some true) ⟨some 100, some 9⟩)
      (.missing) "ex.py" (some exEnvyTree) rfl rfl
  · refine C1_feature_envy_fixed_constants.2.2.1 (.dict (some true) ⟨some 100, some 9⟩)
      "ex.py" (some exEnvyTree) _ ?_
    have hdet : FeatureEnvy_detect (.dict (some true) ⟨some 100, some 9⟩) "ex.py"
        (some exEnvyTree) = FeatureEnvy_run 100 9 "ex.py" exEnvyTree := rfl
    rw [hdet, exEnvy_run_eq]
    exact List.mem_singleton_self _

/-- C10: a single `self.h.attr` expression with `h` one of the fixed names
(`restaurant`, `manager`, `service`, `store`, `data`) contributes 2 self
accesses (one per attribute level of the chain) and, additionally, 1
foreign access attributed to the synthetic class `ExternalService` — the
supplementary heuristic adds to the general classification instead of
replacing it (no class named `self` being in scope). -/
theorem C10_self_chain_double_count (classNames : List String)
    (class_name h a2 : String) (hmem : h ∈ commonPatternNames)
    (hself : classNames.contains "self" = false) :
    analyze_feature_envy classNames class_name
      [PyStmt.exprStmt (.attribute (.attribute (.name "self") h) a2)] =
      { is_feature_envy := false
        foreign_accesses := 1
        self_accesses := 2
        foreign_ratio := 1/2
        foreign_classes := ["ExternalService"] } := by
  have hself' : ¬ ("self" ∈ classNames) := by simpa using hself
  unfold analyze_feature_envy
  simp only [stmtListExprs, stmtExprs, exprNodes, List.append_nil, List.nil_append,
    List.foldl_cons, List.foldl_nil]
  simp [envyStep1, envyStep2, is_foreign_access, is_self_access, hself', hmem, setAdd]

/-- C10 witness: the two/three-level heuristic at the concrete hop name
`restaurant` in a class `C` (no class named `self`). -/
theorem C10_self_chain_witness :
    analyze_feature_envy ["C"] "C"
      [PyStmt.exprStmt (.attribute (.attribute (.name "self") "restaurant") "total")] =
      { is_feature_envy := false
        foreign_accesses := 1
        self_accesses := 2
        foreign_ratio := 1/2
        foreign_classes := ["ExternalService"] } :=
  C10_self_chain_double_count ["C"] "C" "restaurant" "total" (by decide) (by decide)

/-- C8: every finding produced by any of the six detectors, on any input
and any threshold configuration, has severity `medium` or `high`; `low` is
never produced. -/
theorem C8_severity_invariant :
    (∀ (cfg : DetectorEntry LongMethodThresholds) fp t? src s,
       s ∈ LongMethod_detect cfg fp t? src →
       s.severity = "medium" ∨ s.severity = "high") ∧
    (∀ (cfg : DetectorEntry GodClassThresholds) fp t? src s,
       s ∈ GodClass_detect cfg fp t? src →
       s.severity = "medium" ∨ s.severity = "high") ∧
    (∀ (cfg : DetectorEntry LargeParameterListThresholds) fp t? s,
       s ∈ LargeParameterList_detect cfg fp t? →
       s.severity = "medium" ∨ s.severity = "high") ∧
    (∀ (cfg : DetectorEntry MagicNumbersThresholds) fp t? s,
       s ∈ MagicNumbers_detect cfg fp t? →
       s.severity = "medium" ∨ s.severity = "high") ∧
    (∀ (cfg : DetectorEntry FeatureEnvyThresholds) fp t? s,
       s ∈ FeatureEnvy_detect cfg fp t? →
       s.severity = "medium" ∨ s.severity = "high") ∧
    (∀ (cfg : DetectorEntry DuplicatedCodeThresholds) fp t? src s,
       s ∈ DuplicatedCode_detect cfg fp t? src →
       s.severity = "medium" ∨ s.severity = "high") := by
  refine ⟨?_, ?_, ?_, ?_, ?_, ?_⟩
  · intro cfg fp t? src s hs
    unfold LongMethod_detect at hs
    split at hs
    · exact absurd hs (List.not_mem_nil s)
    · cases t? with
      | none => exact absurd hs (List.not_mem_nil s)
      | some tree =>
        rw [List.mem_flatten] at hs
        obtain ⟨l, hl, hsl⟩ := hs
        rw [List.mem_map] at hl
        obtain ⟨f, hf, rfl⟩ := hl
        unfold analyze_method at hsl
        rw [List.mem_append] at hsl
        rcases hsl with h | h <;> split at h <;>
          first
          | exact absurd h (List.not_mem_nil s)
          | (rw [List.mem_singleton] at h
             subst h
             dsimp [line_smell, complexity_smell]
             split <;> simp)
  · intro cfg fp t? src s hs
    unfold GodClass_detect at hs
    split at hs
    · exact absurd hs (List.not_mem_nil s)
    · cases t? with
      | none => exact absurd hs (List.not_mem_nil s)
      | some tree =>
        rw [List.mem_flatten] at hs
        obtain ⟨l, hl, hsl⟩ := hs
        rw [List.mem_map] at hl
        obtain ⟨c, hc, rfl⟩ := hl
        unfold analyze_class at hsl
        rw [List.mem_append, List.mem_append] at hsl
        rcases hsl with (h | h) | h <;> split at h <;>
          first
          | exact absurd h (List.not_mem_nil s)
          | (rw [List.mem_singleton] at h
             subst h
             dsimp
             split <;> simp)
  · intro cfg fp t? s hs
    unfold LargeParameterList_detect at hs
    split at hs
    · exact absurd hs (List.not_mem_nil s)
    · cases t? with
      | none => exact absurd hs (List.not_mem_nil s)
      | some tree =>
        rw [List.mem_filterMap] at hs
        obtain ⟨f, hf, hsome⟩ := hs
        split at hsome
        · cases hsome
          dsimp [mkLargeParamSmell]
          split <;> simp
        · exact absurd hsome (by simp)
  · intro cfg fp t? s hs
    unfold MagicNumbers_detect at hs
    split at hs
    · exact absurd hs (List.not_mem_nil s)
    · cases t? with
      | none => exact absurd hs (List.not_mem_nil s)
      | some tree =>
        rw [List.mem_filterMap] at hs
        obtain ⟨v, hv, hsome⟩ := hs
        dsimp only at hsome
        split at hsome
        · cases hsome
          left
          rfl
        · exact absurd hsome (by simp)
  · intro cfg fp t? s hs
    unfold FeatureEnvy_detect at hs
    split at hs
    · exact absurd hs (List.not_mem_nil s)
    · cases t? with
      | none => exact absurd hs (List.not_mem_nil s)
      | some tree =>
        unfold FeatureEnvy_run at hs
        rw [List.mem_flatten] at hs
        obtain ⟨l, hl, hsl⟩ := hs
        rw [List.mem_map] at hl
        obtain ⟨p, hp, rfl⟩ := hl
        rw [List.mem_filterMap] at hsl
        obtain ⟨m, hm, hsome⟩ := hsl
        dsimp only at hsome
        split at hsome
        · cases hsome
          left
          rfl
        · exact absurd hsome (by simp)
  · intro cfg fp t? src s hs
    unfold DuplicatedCode_detect at hs
    split at hs
    · exact absurd hs (List.not_mem_nil s)
    · cases t? with
      | none => exact absurd hs (List.not_mem_nil s)
      | some tree =>
        rw [List.mem_filterMap] at hs
        obtain ⟨p, hp, hsome⟩ := hs
        dsimp only at hsome
        split at hsome
        · split at hsome
          · cases hsome
            left
            rfl
          · exact absurd hsome (by simp)
        · exact absurd hsome (by simp)

/-- C8 witness: each of the six detectors, on a concrete input that makes
it fire, emits a finding whose severity is `medium` or `high`. -/
theorem C8_severity_witness :
    (∃ s ∈ LongMethod_detect (.dict (some true) ⟨some 2, some 10⟩) "w.py"
        (some [PyStmt.functionDef "f" 1 ⟨[], [], []⟩ exLongBody false]) exLongSrc,
       s.severity = "medium" ∨ s.severity = "high") ∧
    (∃ s ∈ GodClass_detect (.dict (some true) ⟨some 2, some 20, some 200⟩) "w.py"
        (some [PyStmt.classDef "C" 1
          [.assign [.tname "x"] (.numConst 1 1),
           .assign [.tname "y"] (.numConst 2 2),
           .assign [.tname "z"] (.numConst 3 3)]]) "x",
       s.severity = "medium" ∨ s.severity = "high") ∧
    (∃ s ∈ LargeParameterList_detect (.dict (some true) ⟨some 0⟩) "w.py"
        (some [PyStmt.functionDef "f" 1 ⟨[], ["a"], []⟩ [PyStmt.passStmt] false]),
       s.severity = "medium" ∨ s.severity = "high") ∧
    (∃ s ∈ MagicNumbers_detect (.dict (some true) ⟨some 1, none, none, none⟩) "w.py"
        (some [PyStmt.exprStmt (.numConst 42 1)]),
       s.severity = "medium" ∨ s.severity = "high") ∧
    (∃ s ∈ FeatureEnvy_detect (.missing) "ex.py" (some exEnvyTree),
       s.severity = "medium" ∨ s.severity = "high") ∧
    (∃ s ∈ DuplicatedCode_detect (.dict (some true) ⟨some 0, some 1⟩) "w.py"
        (some exDupEmptyTree) exDupEmptySrc,
       s.severity = "medium" ∨ s.severity = "high") := by
  refine ⟨?_, ?_, ?_, ?_, ?_, ?_⟩
  · obtain ⟨s, hs⟩ := List.exists_mem_of_ne_nil
      (LongMethod_detect (.dict (some true) ⟨some 2, some 10⟩) "w.py"
        (some [PyStmt.functionDef "f" 1 ⟨[], [], []⟩ exLongBody false]) exLongSrc)
      (by decide)
    exact ⟨s, hs, C8_severity_invariant.1 _ _ _ _ _ hs⟩
  · obtain ⟨s, hs⟩ := List.exists_mem_of_ne_nil
      (GodClass_detect (.dict (some true) ⟨some 2, some 20, some 200⟩) "w.py"
        (some [PyStmt.classDef "C" 1
          [.assign [.tname "x"] (.numConst 1 1),
           .assign [.tname "y"] (.numConst 2 2),
           .assign [.tname "z"] (.numConst 3 3)]]) "x")
      (by decide)
    exact ⟨s, hs, C8_severity_invariant.2.1 _ _ _ _ _ hs⟩
  · obtain ⟨s, hs⟩ := List.exists_mem_of_ne_nil
      (LargeParameterList_detect (.dict (some true) ⟨some 0⟩) "w.py"
        (some [PyStmt.functionDef "f" 1 ⟨[], ["a"], []⟩ [PyStmt.passStmt] false]))
      (by decide)
    exact ⟨s, hs, C8_severity_invariant.2.2.1 _ _ _ _ hs⟩
  · obtain ⟨s, hs⟩ := List.exists_mem_of_ne_nil
      (MagicNumbers_detect (.dict (some true) ⟨some 1, none, none, none⟩) "w.py"
        (some [PyStmt.exprStmt (.numConst 42 1)]))
      (by decide)
    exact ⟨s, hs, C8_severity_invariant.2.2.2.1 _ _ _ _ hs⟩
  · have hmem : mkEnvySmell 3 (3/2) "ex.py" "A"
        ⟨"m", 2, ⟨[], [], []⟩, exEnvyBody, false⟩
        (analyze_feature_envy ["A", "B"] "A" exEnvyBody) ∈
        FeatureEnvy_detect (.missing) "ex.py" (some exEnvyTree) := by
      rw [show FeatureEnvy_detect (.missing) "ex.py" (some exEnvyTree) =
          FeatureEnvy_run 3 (3/2) "ex.py" exEnvyTree from rfl, exEnvy_run_eq]
      exact List.mem_singleton_self _
    exact ⟨_, hmem, C8_severity_invariant.2.2.2.2.1 _ _ _ _ hmem⟩
  · obtain ⟨s, hs⟩ := List.exists_mem_of_ne_nil
      (DuplicatedCode_detect (.dict (some true) ⟨some 0, some 1⟩) "w.py"
        (some exDupEmptyTree) exDupEmptySrc)
      (by decide)
    exact ⟨s, hs, C8_severity_invariant.2.2.2.2.2 _ _ _ _ _ hs⟩

/-! ### String lemmas for the DuplicatedCode similarity claims -/

/-- Helper: what `dropWhile` returns never starts with a satisfying
element. -/
theorem dropWhile_head_false (p : Char → Bool) :
    ∀ (l : List Char) (c : Char) (rest : List Char),
      l.dropWhile p = c :: rest → p c = false := by
  intro l
  induction l with
  | nil => intro c rest h; simp [List.dropWhile] at h
  | cons a as ih =>
    intro c rest h
    rw [List.dropWhile_cons] at h
    by_cases hp : p a = true
    · rw [if_pos hp] at h
      exact ih c rest h
    · rw [if_neg hp] at h
      cases h
      exact Bool.eq_false_iff.mpr hp

/-- Helper: a non-empty stripped string starts with a non-whitespace
character. -/
theorem pyStrip_head (s : String) (hne : pyStrip s ≠ "") :
    ∃ c rest, (pyStrip s).data = c :: rest ∧ pyWs c = false := by
  unfold pyStrip at *
  set l1 := s.data.dropWhile pyWs with hl1
  set r := (l1.reverse.dropWhile pyWs).reverse with hr
  have hrne : r ≠ [] := by
    intro hcontra
    exact hne (by rw [hcontra])
  have hpre : r <+: l1 := by
    rw [← List.reverse_suffix, hr, List.reverse_reverse]
    exact List.dropWhile_suffix pyWs
  obtain ⟨t, ht⟩ := hpre
  cases hc : r with
  | nil => exact absurd hc hrne
  | cons c rest =>
    refine ⟨c, rest, rfl, ?_⟩
    rw [hc] at ht
    exact dropWhile_head_false pyWs s.data c (rest ++ t) (by rw [← hl1, ← ht]; rfl)

/-- Helper: joining a non-empty list of lines starts with the first
line's characters. -/
theorem joinNL_data_cons (s : String) (rest : List String) :
    ∃ z, (joinNL (s :: rest)).data = s.data ++ z := by
  cases rest with
  | nil => exact ⟨[], by simp [joinNL]⟩
  | cons t ts =>
    refine ⟨'\n' :: (joinNL (t :: ts)).data, ?_⟩
    show (s ++ String.mk ['\n'] ++ joinNL (t :: ts)).data = _
    rw [show (s ++ String.mk ['\n'] ++ joinNL (t :: ts)).data =
      s.data ++ ['\n'] ++ (joinNL (t :: ts)).data from rfl, List.append_assoc]
    rfl

/-- Helper: the token scanner flushes a non-empty current token. -/
theorem splitTokensGo_ne_nil :
    ∀ (l : List Char) (cur : List Char), cur ≠ [] → splitTokensGo l cur ≠ [] := by
  intro l
  induction l with
  | nil =>
    intro cur h
    simp [splitTokensGo, h]
  | cons c cs ih =>
    intro cur h
    rw [splitTokensGo]
    by_cases hw : pyWs c = true
    · rw [if_pos hw, if_neg (by simpa using h)]
      simp
    · rw [if_neg hw]
      exact ih (c :: cur) (by simp)

/-- Helper: a string starting with a non-whitespace character has at least
one token. -/
theorem pyTokens_ne_nil (s : String) (c : Char) (z : List Char)
    (hdata : s.data = c :: z) (hc : pyWs c = false) : pyTokens s ≠ [] := by
  unfold pyTokens splitTokens
  rw [hdata, splitTokensGo, if_neg (by simp [hc])]
  have := splitTokensGo_ne_nil z [c] (by simp)
  simp [this]

/-- Helper: a non-empty normalized body starts with a non-whitespace
character (its lines are stripped and non-empty). -/
theorem normalize_code_head (t : String) (h : normalize_code t ≠ "") :
    ∃ c z, (normalize_code t).data = c :: z ∧ pyWs c = false := by
  unfold normalize_code at *
  cases hL : ((splitLines t).map
      (fun line => pyStrip (String.mk (line.data.takeWhile (fun c => c ≠ '#'))))).filter
        (fun line => line ≠ "") with
  | nil => rw [hL] at h; exact absurd rfl h
  | cons s0 rest =>
    have hs0 : s0 ∈ ((splitLines t).map
        (fun line => pyStrip (String.mk (line.data.takeWhile (fun c => c ≠ '#'))))).filter
          (fun line => line ≠ "") := by
      rw [hL]; exact List.mem_cons_self s0 rest
    rw [List.mem_filter] at hs0
    obtain ⟨hmem, hne0⟩ := hs0
    rw [List.mem_map] at hmem
    obtain ⟨u, _, hu⟩ := hmem
    have hne0' : s0 ≠ "" := by simpa using hne0
    obtain ⟨c, r, hdata, hcws⟩ := pyStrip_head
      (String.mk (u.data.takeWhile (fun c => c ≠ '#'))) (hu ▸ hne0')
    obtain ⟨z, hz⟩ := joinNL_data_cons s0 rest
    refine ⟨c, r ++ z, ?_, hcws⟩
    rw [hz, ← hu, hdata]
    rfl

/-- Helper: the token sets of a non-empty normalized body are
non-empty. -/
theorem pyTokens_normalize_ne_nil (t : String) (h : normalize_code t ≠ "") :
    pyTokens (normalize_code t) ≠ [] := by
  obtain ⟨c, z, hdata, hc⟩ := normalize_code_head t h
  exact pyTokens_ne_nil _ c z hdata hc

/-- C3 (amended form): on normalized bodies, `_string_similarity` is the
Jaccard index of the token sets when both bodies are non-empty and `0.0`
whenever either body (the both-empty case included) is empty. -/
theorem C3_token_similarity_amended (t1 t2 : String) :
    string_similarity (normalize_code t1) (normalize_code t2) =
      tokenSimilarityAmendedC3 (normalize_code t1) (normalize_code t2) := by
  by_cases h1 : normalize_code t1 = ""
  · unfold string_similarity tokenSimilarityAmendedC3
    rw [if_pos (by simp [h1]), if_pos (Or.inl h1)]
  · by_cases h2 : normalize_code t2 = ""
    · unfold string_similarity tokenSimilarityAmendedC3
      rw [if_pos (by simp [h2]), if_pos (Or.inr h2)]
    · have htok1 := pyTokens_normalize_ne_nil t1 h1
      have htok2 := pyTokens_normalize_ne_nil t2 h2
      have hfin1 : (pyTokens (normalize_code t1)).toFinset ≠ ∅ := by
        simpa using htok1
      have hfin2 : (pyTokens (normalize_code t2)).toFinset ≠ ∅ := by
        simpa using htok2
      have hpos : 0 < ((pyTokens (normalize_code t1)).toFinset ∪
          (pyTokens (normalize_code t2)).toFinset).card := by
        obtain ⟨x, hx⟩ := Finset.nonempty_iff_ne_empty.mpr hfin1
        exact Finset.card_pos.mpr ⟨x, Finset.mem_union_left _ hx⟩
      have hL : string_similarity (normalize_code t1) (normalize_code t2) =
          (((pyTokens (normalize_code t1)).toFinset ∩
              (pyTokens (normalize_code t2)).toFinset).card : ℚ) /
            (((pyTokens (normalize_code t1)).toFinset ∪
              (pyTokens (normalize_code t2)).toFinset).card : ℚ) := by
        unfold string_similarity
        dsimp only
        rw [if_neg (by simp [h1, h2]), if_neg (by simp [hfin1]),
          if_neg (by simp [hfin1, hfin2]), if_pos hpos]
      rw [hL]
      unfold tokenSimilarityAmendedC3 tokenJaccard
      rw [if_neg (by simp [h1, h2])]

/-- C3 counterexample: when both normalized bodies are empty the source's
early emptiness guard returns `0.0`, where the claim's convention demands
`1.0` (its both-empty-token branch is unreachable for empty strings). -/
theorem C3_counterexample :
    string_similarity "" "" = 0 ∧ tokenSimilaritySpecC3 "" "" = 1 ∧
    string_similarity "" "" ≠ tokenSimilaritySpecC3 "" "" := by
  refine ⟨rfl, rfl, ?_⟩
  rw [show string_similarity "" "" = 0 from rfl,
    show tokenSimilaritySpecC3 "" "" = 1 from rfl]
  norm_num

/-! ### Lemmas for the DuplicatedCode identity claim -/

/-- Helper: the pattern-matching loop credits at most
`len(patterns1) + len(patterns2)`. -/
theorem match_patterns_le :
    ∀ (p q : List String), match_patterns p q ≤ p.length + q.length := by
  intro p
  induction p with
  | nil => intro q; simp [match_patterns]
  | cons x rest ih =>
    intro q
    rw [match_patterns]
    by_cases hx : x ∈ q
    · rw [if_pos hx]
      have hq : 1 ≤ q.length := List.length_pos.mpr (List.ne_nil_of_mem hx)
      have he : (q.erase x).length = q.length - 1 := List.length_erase_of_mem hx
      have h := ih (q.erase x)
      rw [he] at h
      simp only [List.length_cons]
      omega
    · rw [if_neg hx]
      have h := ih q
      simp only [List.length_cons]
      omega

/-- Helper: `_pattern_similarity` never exceeds 1. -/
theorem pattern_similarity_le_one (c1 c2 : String) : pattern_similarity c1 c2 ≤ 1 := by
  unfold pattern_similarity
  dsimp only
  split
  · exact le_refl 1
  · split
    · norm_num
    · split
      · rename_i htotal
        rw [div_le_one (by exact_mod_cast htotal)]
        exact_mod_cast match_patterns_le (extract_patterns c1) (extract_patterns c2)
      · norm_num

/-- Helper: `_string_similarity` of a non-empty string with itself is 1
(identical token sets — or, for a whitespace-only string, the
empty-token-sets branch). -/
theorem string_similarity_self (s : String) (h : s ≠ "") :
    string_similarity s s = 1 := by
  unfold string_similarity
  dsimp only
  rw [if_neg (by simp [h])]
  by_cases ht : (pyTokens s).toFinset = ∅
  · rw [if_pos ⟨ht, ht⟩]
  · rw [if_neg (by simp [ht]), if_neg (by simp [ht]), Finset.inter_self, Finset.union_self]
    have hpos : 0 < (pyTokens s).toFinset.card :=
      Finset.card_pos.mpr (Finset.nonempty_iff_ne_empty.mpr ht)
    rw [if_pos hpos]
    exact div_self (by exact_mod_cast hpos.ne')

/-- Helper: two empty normalized bodies have no patterns, so the pattern
similarity is 1. -/
theorem pattern_similarity_empty : pattern_similarity "" "" = 1 := rfl

/-- Helper: when both extracted bodies are non-empty and their normalized
forms coincide, `_calculate_similarity` is exactly 1. -/
theorem calculate_similarity_eq_one (src : String) (l1 l2 : Nat)
    (h1 : extract_function_body src l1 ≠ "")
    (h2 : extract_function_body src l2 ≠ "")
    (hn : normalize_code (extract_function_body src l1) =
          normalize_code (extract_function_body src l2)) :
    calculate_similarity src l1 l2 = 1 := by
  unfold calculate_similarity
  dsimp only
  rw [if_neg (by simp [h1, h2]), hn]
  by_cases hne : normalize_code (extract_function_body src l2) = ""
  · rw [hne, show string_similarity "" "" = 0 from rfl, pattern_similarity_empty]
    norm_num
  · rw [string_similarity_self _ hne]
    exact max_eq_left (pattern_similarity_le_one _ _)

/-- Helper: the enabled DuplicatedCode detector on a parsed tree is the
filter of its per-pair rule. -/
theorem DC_detect_enabled (cfg : DetectorEntry DuplicatedCodeThresholds)
    (fp : String) (tree : PyModule) (src : String) (h : cfg.is_enabled = true) :
    DuplicatedCode_detect cfg fp (some tree) src =
      (pairsOf ((functionDefsOf tree).map (fun f => (f.name, f.lineno)))).filterMap
        (fun p =>
          if cfg.threshold DuplicatedCodeThresholds.min_similarity (4/5) ≤
               calculate_similarity src p.1.2 p.2.2 then
            if cfg.threshold DuplicatedCodeThresholds.min_chunk_size 3 ≤
                 count_extent src p.1.2 ∧
               cfg.threshold DuplicatedCodeThresholds.min_chunk_size 3 ≤
                 count_extent src p.2.2 then
              some (mkDupSmell (cfg.threshold DuplicatedCodeThresholds.min_similarity (4/5))
                fp p (calculate_similarity src p.1.2 p.2.2)
                (count_extent src p.1.2) (count_extent src p.2.2))
            else none
          else none) := by
  unfold DuplicatedCode_detect
  rw [h]
  rfl

/-- C5 (amended): for every pair of compared function definitions whose
extracted bodies are both non-empty and normalize to the same text, with
both extents at least `min_chunk_size`, the computed similarity is exactly
1.0 and the pair's finding is emitted, for every `min_similarity ≤ 1.0`
(without the non-emptiness proviso the early empty-body guard of
`_calculate_similarity` yields similarity 0.0 instead, see the
counterexample). -/
theorem C5_duplicated_identity (cfg : DetectorEntry DuplicatedCodeThresholds)
    (fp src : String) (tree : PyModule) (p : (String × Nat) × (String × Nat))
    (henabled : cfg.is_enabled = true)
    (hmem : p ∈ pairsOf ((functionDefsOf tree).map (fun f => (f.name, f.lineno))))
    (hb1 : extract_function_body src p.1.2 ≠ "")
    (hb2 : extract_function_body src p.2.2 ≠ "")
    (hnorm : normalize_code (extract_function_body src p.1.2) =
             normalize_code (extract_function_body src p.2.2))
    (hc1 : cfg.threshold DuplicatedCodeThresholds.min_chunk_size 3 ≤
           count_extent src p.1.2)
    (hc2 : cfg.threshold DuplicatedCodeThresholds.min_chunk_size 3 ≤
           count_extent src p.2.2)
    (hms : cfg.threshold DuplicatedCodeThresholds.min_similarity (4/5) ≤ 1) :
    calculate_similarity src p.1.2 p.2.2 = 1 ∧
    mkDupSmell (cfg.threshold DuplicatedCodeThresholds.min_similarity (4/5)) fp p 1
        (count_extent src p.1.2) (count_extent src p.2.2) ∈
      DuplicatedCode_detect cfg fp (some tree) src := by
  have hsim := calculate_similarity_eq_one src p.1.2 p.2.2 hb1 hb2 hnorm
  refine ⟨hsim, ?_⟩
  rw [DC_detect_enabled cfg fp tree src henabled]
  apply List.mem_filterMap.mpr
  refine ⟨p, hmem, ?_⟩
  rw [hsim, if_pos hms, if_pos ⟨hc1, hc2⟩]

/-- C5 witness: the two three-line functions of `exDupSrc` with identical
bodies, `min_similarity = 1`, `min_chunk_size = 3`. -/
theorem C5_duplicated_identity_witness :
    calculate_similarity exDupSrc 1 4 = 1 ∧
    mkDupSmell 1 "w.py" (("f", 1), ("g", 4)) 1 3 3 ∈
      DuplicatedCode_detect (.dict (some true) ⟨some 1, some 3⟩) "w.py"
        (some exDupTree) exDupSrc := by
  have h := C5_duplicated_identity (.dict (some true) ⟨some 1, some 3⟩)
    "w.py" exDupSrc exDupTree (("f", 1), ("g", 4)) rfl (by decide) (by decide)
    (by decide) (by decide) (by decide) (by decide) (by norm_num [DetectorEntry.threshold])
  exact h

/-- C5 counterexample: two one-line functions whose extracted bodies are
both empty.  Every hypothesis of the claim holds (identical — empty —
normalized bodies, both extents `≥ min_chunk_size = 1`,
`min_similarity = 1 ≤ 1.0`), yet the computed similarity is 0.0 and no
finding is emitted. -/
theorem C5_duplicated_counterexample :
    (("f", 1), ("g", 2)) ∈
      pairsOf ((functionDefsOf exDupEmptyTree).map (fun f => (f.name, f.lineno))) ∧
    normalize_code (extract_function_body exDupEmptySrc 1) =
      normalize_code (extract_function_body exDupEmptySrc 2) ∧
    1 ≤ count_extent exDupEmptySrc 1 ∧ 1 ≤ count_extent exDupEmptySrc 2 ∧
    ((DetectorEntry.dict (some true) ⟨some 1, some 1⟩ :
        DetectorEntry DuplicatedCodeThresholds).threshold
      DuplicatedCodeThresholds.min_similarity (4/5) ≤ 1) ∧
    calculate_similarity exDupEmptySrc 1 2 = 0 ∧
    DuplicatedCode_detect (.dict (some true) ⟨some 1, some 1⟩) "ex.py"
      (some exDupEmptyTree) exDupEmptySrc = [] := by
  refine ⟨by decide, by decide, by decide, by decide, by norm_num [DetectorEntry.threshold], rfl, rfl⟩

end CodeSmell
